import Mathlib

/-!
Verification of the monlight Python telemetry clients
(`monlightstack/metrics_client.py` and `monlightstack/error_client.py`)
against their natural-language specification.

The two modules are embedded shallowly:

* `MetricsClient` becomes a configuration record `MetricsClientCfg` plus an
  explicit dynamic state `MCState` (the buffer, the `_running` flag, whether a
  timer is pending) instrumented with ghost fields that count created timers,
  batch POSTs handed to the transport, and logged warnings.  Every method body
  holds the single lock for its whole critical section, so each `_buffer_metric`
  append and each drain (the copy-and-clear section of `flush`) is one atomic
  step; interleavings of concurrent calls are modelled as sequences of these
  atomic operations (`MOp`).
* The HTTP transport is a black box: a send attempt yields a `SendOutcome`
  (a status code, or a raised transport fault), and the embedding threads that
  outcome through `flush`.
* `ErrorClient` is stateless; `_build_payload`, `_filter_headers`,
  `report_error` and `report_error_sync` become pure functions.  A captured
  Python exception is modelled by the data the client reads from it
  (`__qualname__`, `str(e)`, the formatted traceback), where `str(e)` may
  itself raise (a user-defined `__str__` can fail), hence `Except`.
-/

namespace Monlight

/-- Python `str.lower()`, character by character (the keys involved are
ASCII header names, where this agrees with CPython). -/
def pyLower (s : String) : String := String.mk (s.data.map Char.toLower)

/-- Python `str.rstrip("/")`: removes every trailing `'/'` character.
Used by both constructors on `base_url`. -/
def rstripSlash (s : String) : String :=
  String.mk ((s.data.reverse.dropWhile (fun c => c == '/')).reverse)

/-- One buffered observation, mirroring the dict built by
`MetricsClient._buffer_metric`: the `labels` key is present only when the
caller passed a non-empty labels dict (`if labels:`). -/
structure Metric where
  name : String
  mtype : String
  value : Float
  timestamp : String
  labels : Option (List (String × String))

/-- The configuration stored by `MetricsClient.__init__`. -/
structure MetricsClientCfg where
  base_url : String
  api_key : String
  flush_interval : Float
  timeout : Float

/-- `MetricsClient.__init__`: strips trailing slashes off `base_url`. -/
def mkMetricsClient (base_url api_key : String) (flush_interval tmo : Float) :
    MetricsClientCfg :=
  { base_url := rstripSlash base_url
    api_key := api_key
    flush_interval := flush_interval
    timeout := tmo }

/-- The URL `flush` posts to: the f-string `{base_url}/api/metrics`. -/
def metricsUrl (c : MetricsClientCfg) : String := c.base_url ++ "/api/metrics"

/-- Outcome of one transport attempt: an HTTP response status, or a raised
transport-level fault (connection refused, timeout, ...). -/
inductive SendOutcome
  | status (code : Nat)
  | fault

/-- `flush` treats 200 and 202 as success (`status_code not in (200, 202)`
triggers the warning). -/
def metricsSendOk : SendOutcome → Bool
  | .status code => code == 200 || code == 202
  | .fault => false

/-- Dynamic state of one `MetricsClient`, with ghost instrumentation:
`timersCreated` counts `threading.Timer` objects ever constructed,
`drained` records each batch handed to the transport (in order),
`networkCalls` counts batch POSTs issued, `warnings` counts logged
warnings from failed sends. -/
structure MCState where
  buffer : List Metric
  running : Bool
  timerActive : Bool
  timersCreated : Nat
  drained : List (List Metric)
  networkCalls : Nat
  warnings : Nat

/-- Freshly constructed client: empty buffer, not running, no timer. -/
def initState : MCState :=
  { buffer := [], running := false, timerActive := false, timersCreated := 0
    drained := [], networkCalls := 0, warnings := 0 }

/-- The locked append `self._buffer.append(metric)` at the end of
`_buffer_metric` (one atomic step, performed under `self._lock`). -/
def appendObs (s : MCState) (m : Metric) : MCState :=
  { s with buffer := s.buffer ++ [m] }

/-- `MetricsClient._buffer_metric`: builds the metric dict (capture-time
timestamp supplied by the caller of the embedding) and appends it; the
`labels` key is included only when the labels dict is non-empty. -/
def bufferMetric (s : MCState) (name mtype : String) (value : Float)
    (ts : String) (labels : Option (List (String × String))) : MCState :=
  appendObs s
    { name := name, mtype := mtype, value := value, timestamp := ts
      labels := match labels with
        | some l => if l.isEmpty then none else some l
        | none => none }

/-- `MetricsClient.counter`. -/
def counter (s : MCState) (name : String)
    (labels : Option (List (String × String))) (value : Float) (ts : String) :
    MCState :=
  bufferMetric s name "counter" value ts labels

/-- `MetricsClient.histogram`. -/
def histogram (s : MCState) (name : String) (value : Float)
    (labels : Option (List (String × String))) (ts : String) : MCState :=
  bufferMetric s name "histogram" value ts labels

/-- `MetricsClient.gauge`. -/
def gauge (s : MCState) (name : String) (value : Float)
    (labels : Option (List (String × String))) (ts : String) : MCState :=
  bufferMetric s name "gauge" value ts labels

/-- `MetricsClient.flush` with transport outcome `o`.  Under the lock: if the
buffer is empty, return at once (no copy, no POST); otherwise copy and clear
it.  Outside the lock the copied batch is POSTed once; a non-success status
or a raised fault only logs a warning — the batch is never requeued. -/
def flush (s : MCState) (o : SendOutcome) : MCState :=
  if s.buffer.isEmpty then s
  else
    { s with buffer := []
             drained := s.drained ++ [s.buffer]
             networkCalls := s.networkCalls + 1
             warnings := s.warnings + (if metricsSendOk o then 0 else 1) }

/-- `MetricsClient._schedule_flush`: returns immediately unless `_running`,
otherwise constructs and starts one new `threading.Timer`. -/
def scheduleFlush (s : MCState) : MCState :=
  if s.running then
    { s with timerActive := true, timersCreated := s.timersCreated + 1 }
  else s

/-- `MetricsClient.start`: no-op while `_running`, otherwise sets `_running`
and schedules the first flush. -/
def start (s : MCState) : MCState :=
  if s.running then s else scheduleFlush { s with running := true }

/-- `MetricsClient._flush_and_reschedule`, the timer callback body. -/
def flushAndReschedule (s : MCState) (o : SendOutcome) : MCState :=
  scheduleFlush (flush s o)

/-- A pending timer fires: the timer is consumed, then the callback runs. -/
def timerFire (s : MCState) (o : SendOutcome) : MCState :=
  if s.timerActive then flushAndReschedule { s with timerActive := false } o
  else s

/-- `MetricsClient.shutdown`: clears `_running`, cancels any pending timer,
then performs one final synchronous flush. -/
def shutdown (s : MCState) (o : SendOutcome) : MCState :=
  flush { s with running := false, timerActive := false } o

/-- One atomic step in an interleaving of concurrent client calls: an append
(the locked section of `_buffer_metric`) or a drain (`flush`, whose
copy-and-clear runs under the same lock) with its transport outcome. -/
inductive MOp
  | append (m : Metric)
  | drain (o : SendOutcome)

/-- Execute one atomic operation. -/
def stepOp (s : MCState) : MOp → MCState
  | .append m => appendObs s m
  | .drain o => flush s o

/-- Execute a whole interleaving. -/
def run (s : MCState) : List MOp → MCState
  | [] => s
  | op :: rest => run (stepOp s op) rest

/-- The observations recorded by an interleaving, in order. -/
def appendedObs : List MOp → List Metric
  | [] => []
  | .append m :: rest => m :: appendedObs rest
  | .drain _ :: rest => appendedObs rest

/-- A concrete observation, for witnesses. -/
def m0 : Metric :=
  { name := "http_requests_total", mtype := "counter", value := 1.0
    timestamp := "2026-01-01T00:00:00Z", labels := none }

/-- A client state whose buffer holds exactly `m0`. -/
def st0 : MCState := appendObs initState m0

/-- A Python-level fault (an exception raised while the client runs). -/
structure PyFault where
  msg : String
deriving DecidableEq

/-- A captured Python exception, as `ErrorClient` reads it: the type's
`__qualname__` and `__module__`, the result of `str(exception)` — which may
itself raise, since a user-defined `__str__` can fail — and the text
`"".join(traceback.format_exception(exception))`. -/
structure PyExc where
  module : String
  qualname : String
  strFn : Except PyFault String
  tbText : String

/-- The module-level `_SENSITIVE_HEADERS` deny-list of `error_client.py`. -/
def sensitiveHeaders : List String :=
  ["authorization", "cookie", "set-cookie", "x-api-key"]

/-- The configuration stored by `ErrorClient.__init__`; `excludedHeaders` is
`_SENSITIVE_HEADERS | {h.lower() for h in (excluded_headers or set())}`,
modelled as a list used only through membership. -/
structure ErrorClientCfg where
  base_url : String
  api_key : String
  project : String
  environment : String
  timeout : Float
  excludedHeaders : List String

/-- `ErrorClient.__init__`: strips trailing slashes off `base_url` and builds
the deny-list from the built-in set plus the lower-cased extensions. -/
def mkErrorClient (base_url api_key project environment : String)
    (tmo : Float) (excluded_headers : List String) : ErrorClientCfg :=
  { base_url := rstripSlash base_url
    api_key := api_key
    project := project
    environment := environment
    timeout := tmo
    excludedHeaders := sensitiveHeaders ++ excluded_headers.map pyLower }

/-- The URL the error reporters post to: the f-string `{base_url}/api/errors`. -/
def errorsUrl (c : ErrorClientCfg) : String := c.base_url ++ "/api/errors"

/-- `ErrorClient._filter_headers`: keeps exactly the entries whose lower-cased
key is not in the deny-list.  A header dict is modelled as an association
list. -/
def filterHeaders (c : ErrorClientCfg) (headers : List (String × String)) :
    List (String × String) :=
  headers.filter (fun kv => !(c.excludedHeaders.contains (pyLower kv.1)))

/-- The optional `request_context` dict: each recognised key is present or
absent.  `user_id` is an arbitrary value that `str()` renders; its integer
form covers the spec's `42 ↦ "42"` behaviour. -/
structure RequestContext where
  request_url : Option String
  request_method : Option String
  request_headers : Option (List (String × String))
  user_id : Option Int
  extra : Option String

/-- Python truthiness of the `request_context` dict: a present, non-empty
dict (the code guards the optional fields with `if request_context:`). -/
def RequestContext.truthy (rc : RequestContext) : Bool :=
  rc.request_url.isSome || rc.request_method.isSome ||
    rc.request_headers.isSome || rc.user_id.isSome || rc.extra.isSome

/-- The JSON payload dict built by `_build_payload`: five mandatory keys,
five optional ones (`none` = key absent). -/
structure ErrorPayload where
  project : String
  environment : String
  exception_type : String
  message : String
  traceback : String
  request_url : Option String
  request_method : Option String
  request_headers : Option (List (String × String))
  user_id : Option String
  extra : Option String
deriving DecidableEq

/-- `ErrorClient._build_payload`: the mandatory fields always; each optional
field copied (headers filtered, `user_id` passed through `str`) only when
`request_context` is truthy and holds the key.  `str(exception)` may raise,
and `_build_payload` does not catch it. -/
def buildPayload (c : ErrorClientCfg) (e : PyExc)
    (ctx : Option RequestContext) : Except PyFault ErrorPayload :=
  match e.strFn with
  | .error f => .error f
  | .ok msg =>
    let base : ErrorPayload :=
      { project := c.project
        environment := c.environment
        exception_type := e.qualname
        message := msg
        traceback := e.tbText
        request_url := none, request_method := none, request_headers := none
        user_id := none, extra := none }
    match ctx with
    | none => .ok base
    | some rc =>
      if rc.truthy then
        .ok { base with
              request_url := rc.request_url
              request_method := rc.request_method
              request_headers := rc.request_headers.map (filterHeaders c)
              user_id := rc.user_id.map (fun u => toString u)
              extra := rc.extra }
      else .ok base

/-- Outcome of one error-report POST: a response status, or a raised
transport fault. -/
inductive TransportResult
  | status (code : Nat)
  | fault (f : PyFault)

/-- Both reporters treat 200 and 201 as success
(`status_code not in (200, 201)` triggers the warning). -/
def errorSendOk (code : Nat) : Bool := code == 200 || code == 201

/-- What one guarded send attempt leaves behind: the payload handed to the
transport, and whether a warning was logged. -/
structure SendLog where
  posted : Option ErrorPayload
  warned : Bool
deriving DecidableEq

/-- The `try:` block shared in shape by both reporters: POST the payload;
warn on a non-success status; catch any raised fault and warn. -/
def postPayload (p : ErrorPayload) (t : TransportResult) : SendLog :=
  match t with
  | .status code => { posted := some p, warned := !(errorSendOk code) }
  | .fault _ => { posted := some p, warned := true }

/-- `ErrorClient.report_error_sync`: builds the payload — outside the
`try:` block — then runs the guarded send. -/
def reportErrorSync (c : ErrorClientCfg) (e : PyExc)
    (ctx : Option RequestContext) (t : TransportResult) :
    Except PyFault SendLog :=
  match buildPayload c e ctx with
  | .error f => .error f
  | .ok payload => .ok (postPayload payload t)

/-- `ErrorClient.report_error` (the async variant): same shape — the payload
is built outside the `try:` block, then the guarded send runs. -/
def reportError (c : ErrorClientCfg) (e : PyExc)
    (ctx : Option RequestContext) (t : TransportResult) :
    Except PyFault SendLog :=
  match buildPayload c e ctx with
  | .error f => .error f
  | .ok payload => .ok (postPayload payload t)

/-- Does a reporter call let a fault escape to the caller? -/
def propagates : Except PyFault SendLog → Bool
  | .error _ => true
  | .ok _ => false

/-- Does payload construction raise? -/
def buildRaises : Except PyFault ErrorPayload → Bool
  | .error _ => true
  | .ok _ => false

/-- The payload a reporter call handed to the transport, if any. -/
def postedOf : Except PyFault SendLog → Option ErrorPayload
  | .error _ => none
  | .ok log => log.posted

/-- Modelled from the spec: the "fully-qualified type name of the captured
fault" — the type's module path joined to its qualified name, which is what
fully-qualified means for a Python type.  For comparison with the source's
`type(exception).__qualname__`. -/
def fullyQualifiedTypeName (e : PyExc) : String :=
  e.module ++ "." ++ e.qualname

/-- A concrete error client: one caller-supplied excluded header. -/
def c0 : ErrorClientCfg :=
  mkErrorClient "http://errors:8000/" "key" "p" "prod" 5.0 ["X-Custom"]

/-- A concrete well-behaved exception. -/
def e0 : PyExc :=
  { module := "builtins", qualname := "ValueError", strFn := .ok "boom"
    tbText := "tb" }

/-- An exception whose `str()` itself raises (a user-defined `__str__` that
fails). -/
def brokenStrExc : PyExc :=
  { module := "app", qualname := "BrokenStr"
    strFn := .error { msg := "str raised" }, tbText := "tb" }

/-- An exception type defined in an application module. -/
def customErr : PyExc :=
  { module := "app.errors", qualname := "CustomError", strFn := .ok "bad"
    tbText := "tb" }

/-- A concrete header map. -/
def hs0 : List (String × String) :=
  [("Authorization", "x"), ("Accept", "y"), ("X-CUSTOM", "z")]

/-- A context supplying only a header map (with one denied entry). -/
def ctx0 : Option RequestContext :=
  some { request_url := none, request_method := none
         request_headers := some [("Authorization", "x")]
         user_id := none, extra := none }

/-- A header map consisting only of denied keys, in assorted cases,
including the caller-registered extension. -/
def hsDenied : List (String × String) :=
  [("AUTHORIZATION", "x"), ("Cookie", "c"), ("x-custom", "z")]

/-- The payload `buildPayload c0 e0 ctx0` evaluates to: every entry of the
supplied header map is denied, so `request_headers` is the present, empty
mapping. -/
def pay0 : ErrorPayload :=
  { project := "p", environment := "prod", exception_type := "ValueError"
    message := "boom", traceback := "tb"
    request_url := none, request_method := none
    request_headers := some []
    user_id := none, extra := none }

/-- A context supplying only `user_id := 42`. -/
def ctxUid : RequestContext :=
  { request_url := none, request_method := none, request_headers := none
    user_id := some 42, extra := none }

/-- The payload built from `ctxUid`: the only optional field present is
`user_id`, as the string `"42"`. -/
def payUid : ErrorPayload :=
  { project := "p", environment := "prod", exception_type := "ValueError"
    message := "boom", traceback := "tb"
    request_url := none, request_method := none, request_headers := none
    user_id := some "42", extra := none }

theorem flush_buffer_eq_nil (s : MCState) (o : SendOutcome) :
    (flush s o).buffer = [] := by
  unfold flush
  cases h : s.buffer.isEmpty with
  | true => simpa [List.isEmpty_iff] using h
  | false => simp

theorem run_accounting (ops : List MOp) (s : MCState) :
    (run s ops).drained.flatten ++ (run s ops).buffer
      = (s.drained.flatten ++ s.buffer) ++ appendedObs ops := by
  induction ops generalizing s with
  | nil => simp [run, appendedObs]
  | cons op rest ih =>
    cases op with
    | append m =>
      simp [run, stepOp, appendObs, appendedObs, ih]
    | drain o =>
      rw [run, stepOp]
      rw [ih]
      unfold flush
      cases h : s.buffer.isEmpty with
      | true =>
        rw [List.isEmpty_iff] at h
        simp [h, appendedObs]
      | false =>
        simp [appendedObs]

theorem flush_preserves_flags (s : MCState) (o : SendOutcome) :
    (flush s o).running = s.running ∧ (flush s o).timerActive = s.timerActive ∧
      (flush s o).timersCreated = s.timersCreated := by
  unfold flush
  cases h : s.buffer.isEmpty <;> simp

theorem shutdown_networkCalls_of_empty (s : MCState) (o : SendOutcome)
    (h : s.buffer = []) : (shutdown s o).networkCalls = s.networkCalls := by
  simp [shutdown, flush, h]

/-- C2: for every interleaving of append calls (counter/histogram/gauge) with
drains on one client, the drained batches concatenated with the final buffer
are exactly the recorded observations in order — so each observation lands in
exactly one drained batch or in the final buffer — and the total count across
drained batches plus the final buffer length equals the number of appends. -/
theorem interleaving_no_loss_no_duplication (ops : List MOp) :
    (run initState ops).drained.flatten ++ (run initState ops).buffer
        = appendedObs ops ∧
      ((run initState ops).drained.map List.length).sum
          + (run initState ops).buffer.length
        = (appendedObs ops).length := by
  have h := run_accounting ops initState
  simp only [initState, List.flatten_nil, List.nil_append] at h
  refine ⟨h, ?_⟩
  have hl := congrArg List.length h
  simpa using hl

/-- C3: after `flush` returns, the buffer holds no observation that was
present at the drain, regardless of the send outcome: on a non-success
outcome the drained batch is handed to the transport once and dropped (not
requeued), a warning is logged, and the client continues accepting and later
flushing new observations normally. -/
theorem flush_drop_on_failure (s : MCState) (o o' : SendOutcome) (m : Metric)
    (hne : s.buffer.isEmpty = false) (hfail : metricsSendOk o = false) :
    (flush s o).buffer = [] ∧
      (flush s o).drained = s.drained ++ [s.buffer] ∧
      (flush s o).warnings = s.warnings + 1 ∧
      (flush (appendObs (flush s o) m) o').drained
        = (flush s o).drained ++ [[m]] ∧
      (flush (appendObs (flush s o) m) o').buffer = [] := by
  have h1 := flush_buffer_eq_nil s o
  have h2 : (flush s o).drained = s.drained ++ [s.buffer] := by
    simp [flush, hne]
  have h3 : (flush s o).warnings = s.warnings + 1 := by
    simp [flush, hne, hfail]
  have h4 : (flush (appendObs (flush s o) m) o').drained
      = (flush s o).drained ++ [[m]] := by
    generalize hx : flush s o = x at h1 ⊢
    simp [appendObs, flush, h1]
  exact ⟨h1, h2, h3, h4, flush_buffer_eq_nil _ o'⟩

/-- Witness for C3: a failed flush of a one-element buffer empties it, logs
one warning, and a subsequent flush of newly appended data drains normally. -/
theorem flush_drop_on_failure_witness :
    (flush st0 SendOutcome.fault).buffer = [] ∧
      (flush st0 SendOutcome.fault).warnings = 1 ∧
      (flush (appendObs (flush st0 SendOutcome.fault) m0)
          (SendOutcome.status 200)).drained = [[m0], [m0]] := by
  have h := flush_drop_on_failure st0 SendOutcome.fault (SendOutcome.status 200)
    m0 rfl rfl
  refine ⟨h.1, ?_, ?_⟩
  · rw [h.2.2.1]; rfl
  · rw [h.2.2.2.1, h.2.1]; rfl

/-- C8: the scheduler is an idempotent two-state machine: a second `start`
while Running is a no-op, two consecutive `start` calls from a fresh client
create exactly one timer (which is the one pending), `shutdown` moves any
state to Stopped with no pending timer and performs the final drain of
whatever remained buffered, and a second `shutdown` issues no additional
flush network call (at most one, as claimed). -/
theorem scheduler_idempotent (s : MCState) (o o' : SendOutcome) :
    start (start s) = start s ∧
      (start (start initState)).timersCreated = 1 ∧
      (start (start initState)).timerActive = true ∧
      (shutdown s o).running = false ∧
      (shutdown s o).timerActive = false ∧
      (s.buffer.isEmpty = false →
        (shutdown s o).drained = s.drained ++ [s.buffer]) ∧
      (shutdown (shutdown s o) o').networkCalls
        = (shutdown s o).networkCalls := by
  refine ⟨?_, rfl, rfl, ?_, ?_, ?_, ?_⟩
  · by_cases h : s.running = true <;> simp [start, scheduleFlush, h]
  · rw [shutdown, (flush_preserves_flags _ o).1]
  · rw [shutdown, (flush_preserves_flags _ o).2.1]
  · intro hne
    simp [shutdown, flush, hne]
  · exact shutdown_networkCalls_of_empty _ o' (flush_buffer_eq_nil _ o)

/-- Witness for C8: two starts from fresh create one timer; shutting a
one-element-buffer client down drains it, and a second shutdown adds no
network call. -/
theorem scheduler_idempotent_witness :
    (start (start initState)).timersCreated = 1 ∧
      (shutdown st0 SendOutcome.fault).drained = [[m0]] ∧
      (shutdown (shutdown st0 SendOutcome.fault) SendOutcome.fault).networkCalls
        = (shutdown st0 SendOutcome.fault).networkCalls := by
  have h := scheduler_idempotent st0 SendOutcome.fault SendOutcome.fault
  refine ⟨h.2.1, ?_, h.2.2.2.2.2.2⟩
  rw [h.2.2.2.2.2.1 rfl]; rfl

/-- C4: `flush` on an empty buffer is a no-op: the state is unchanged, in
particular no batch is handed to the sender, no network call is issued, and
the buffer stays empty — whatever the transport would have answered. -/
theorem flush_empty_buffer_noop (s : MCState) (o : SendOutcome)
    (h : s.buffer = []) :
    flush s o = s ∧ (flush s o).networkCalls = s.networkCalls ∧
      (flush s o).drained = s.drained ∧ (flush s o).buffer = [] := by
  have hf : flush s o = s := by simp [flush, h]
  exact ⟨hf, by rw [hf], by rw [hf], by rw [hf, h]⟩

/-- Witness for C4 at the freshly constructed client. -/
theorem flush_empty_buffer_noop_witness :
    flush initState SendOutcome.fault = initState ∧
      (flush initState SendOutcome.fault).networkCalls = 0 := by
  have h := flush_empty_buffer_noop initState SendOutcome.fault rfl
  exact ⟨h.1, h.2.1⟩

/-- C1 counterexample: with an exception whose `str()` raises, the payload
build — which runs before the `try:` block — propagates the fault to the
caller even though the transport would have answered 201. -/
theorem report_error_sync_counterexample :
    reportErrorSync c0 brokenStrExc none (TransportResult.status 201)
        = Except.error { msg := "str raised" } ∧
      propagates (reportErrorSync c0 brokenStrExc none
        (TransportResult.status 201)) = true :=
  ⟨rfl, rfl⟩

/-- C1 (amended): neither reporter ever propagates a transport error or a
non-success status — the whole send is caught and only logged — but a fault
raised while building the payload does propagate, because `_build_payload`
runs before the `try:` block: a call raises exactly when the build raises,
independently of the transport's behaviour. -/
theorem report_error_raises_iff_build_raises (c : ErrorClientCfg) (e : PyExc)
    (ctx : Option RequestContext) (t t' : TransportResult) :
    propagates (reportErrorSync c e ctx t)
        = buildRaises (buildPayload c e ctx) ∧
      propagates (reportError c e ctx t')
        = buildRaises (buildPayload c e ctx) := by
  cases hb : buildPayload c e ctx <;>
    simp [reportErrorSync, reportError, hb, propagates, buildRaises]

/-- C9: the synchronous and asynchronous reporters share `_build_payload`:
for every exception, context and pair of transport behaviours, both hand the
identical payload to the transport and propagate identically, so the
sanitization and field-inclusion rules cannot differ between the variants. -/
theorem sync_async_identical_payload (c : ErrorClientCfg) (e : PyExc)
    (ctx : Option RequestContext) (t t' : TransportResult) :
    postedOf (reportError c e ctx t) = postedOf (reportErrorSync c e ctx t') ∧
      propagates (reportError c e ctx t)
        = propagates (reportErrorSync c e ctx t') := by
  cases hb : buildPayload c e ctx <;> cases t <;> cases t' <;>
    simp [reportError, reportErrorSync, hb, postedOf, propagates, postPayload]

/-- C7 counterexample: for an exception type defined in module `app.errors`,
the payload's `exception_type` is the bare qualified name `"CustomError"`,
not the fully-qualified `"app.errors.CustomError"` the claim requires. -/
theorem exception_type_counterexample :
    (buildPayload c0 customErr none).map ErrorPayload.exception_type
        = Except.ok "CustomError" ∧
      fullyQualifiedTypeName customErr = "app.errors.CustomError" ∧
      ("CustomError" : String) ≠ "app.errors.CustomError" :=
  ⟨rfl, rfl, by decide⟩

/-- C7 (amended): the `exception_type` field is the captured fault type's
qualified name (`__qualname__`: qualified by class nesting within its
module, without the module path). -/
theorem exception_type_is_qualname (c : ErrorClientCfg) (e : PyExc)
    (ctx : Option RequestContext) (msg : String)
    (h : e.strFn = Except.ok msg) :
    (buildPayload c e ctx).map ErrorPayload.exception_type
      = Except.ok e.qualname := by
  cases ctx with
  | none => simp [buildPayload, h, Except.map]
  | some rc =>
    by_cases ht : rc.truthy <;> simp [buildPayload, h, ht, Except.map]

/-- Witness for C7's amended theorem at the concrete `customErr`. -/
theorem exception_type_is_qualname_witness :
    (buildPayload c0 customErr none).map ErrorPayload.exception_type
      = Except.ok customErr.qualname :=
  exception_type_is_qualname c0 customErr none "bad" rfl

theorem truthy_false_fields (rc : RequestContext) (h : rc.truthy = false) :
    rc.request_url = none ∧ rc.request_method = none ∧
      rc.request_headers = none ∧ rc.user_id = none ∧ rc.extra = none := by
  simp [RequestContext.truthy] at h
  obtain ⟨⟨⟨⟨h1, h2⟩, h3⟩, h4⟩, h5⟩ := h
  exact ⟨h1, h2, h3, h4, h5⟩

/-- C6: building with no context yields exactly the five mandatory fields
and none of the optional ones; and for every supplied context, every
optional payload field equals the corresponding supplied field — present
exactly when the caller supplied it, the headers filtered, `user_id` coerced
through `str` — while the five mandatory fields stay fixed. -/
theorem build_payload_field_inclusion (c : ErrorClientCfg) (e : PyExc)
    (msg : String) (rc : RequestContext) (pl : ErrorPayload)
    (h : e.strFn = Except.ok msg)
    (hpl : buildPayload c e (some rc) = Except.ok pl) :
    buildPayload c e none = Except.ok
      { project := c.project, environment := c.environment
        exception_type := e.qualname, message := msg, traceback := e.tbText
        request_url := none, request_method := none, request_headers := none
        user_id := none, extra := none } ∧
      pl.project = c.project ∧ pl.environment = c.environment ∧
      pl.exception_type = e.qualname ∧ pl.message = msg ∧
      pl.traceback = e.tbText ∧
      pl.request_url = rc.request_url ∧
      pl.request_method = rc.request_method ∧
      pl.request_headers = rc.request_headers.map (filterHeaders c) ∧
      pl.user_id = rc.user_id.map (fun u => toString u) ∧
      pl.extra = rc.extra := by
  refine ⟨by simp [buildPayload, h], ?_⟩
  rw [buildPayload, h] at hpl
  by_cases ht : rc.truthy
  · simp only [ht, if_true, Except.ok.injEq] at hpl
    cases hpl
    simp
  · simp only [ht, if_false, Except.ok.injEq] at hpl
    cases hpl
    have hz : rc.truthy = false := by
      cases htt : rc.truthy with
      | true => exact absurd htt ht
      | false => rfl
    obtain ⟨h1, h2, h3, h4, h5⟩ := truthy_false_fields rc hz
    simp [h1, h2, h3, h4, h5]

/-- Witness for C6: with no context only the five mandatory fields appear;
with a context supplying only `user_id := 42`, `request_url` and `extra`
stay absent while `user_id` comes out as the supplied value through `str`:
the string `"42"`. -/
theorem build_payload_field_inclusion_witness :
    buildPayload c0 e0 none = Except.ok
      { project := "p", environment := "prod"
        exception_type := "ValueError", message := "boom", traceback := "tb"
        request_url := none, request_method := none, request_headers := none
        user_id := none, extra := none } ∧
      payUid.user_id = ctxUid.user_id.map (fun u => toString u) ∧
      payUid.user_id = some "42" ∧
      payUid.request_url = ctxUid.request_url ∧
      payUid.extra = ctxUid.extra := by
  have h := build_payload_field_inclusion c0 e0 "boom" ctxUid payUid rfl rfl
  exact ⟨h.1, h.2.2.2.2.2.2.2.2.2.1, rfl, h.2.2.2.2.2.2.1,
    h.2.2.2.2.2.2.2.2.2.2⟩

/-- C5: the deny-list is the fixed built-in set united with the lower-cased
caller-supplied extensions; the sanitizer keeps exactly the entries whose
lower-cased key is not in it; when every header is denied the result is the
empty mapping; and the `request_headers` field appears in the payload exactly
when the caller supplied a header map in the context, however many entries
survive. -/
theorem filter_headers_spec (b k pj env : String) (tmo : Float)
    (ex : List String) (hs : List (String × String)) (kv : String × String)
    (e : PyExc) (ctx : Option RequestContext) :
    (mkErrorClient b k pj env tmo ex).excludedHeaders
        = sensitiveHeaders ++ ex.map pyLower ∧
      (kv ∈ filterHeaders (mkErrorClient b k pj env tmo ex) hs ↔
        kv ∈ hs ∧
          ¬ (pyLower kv.1 ∈ sensitiveHeaders ∨
              pyLower kv.1 ∈ ex.map pyLower)) ∧
      ((∀ p ∈ hs,
          pyLower p.1 ∈ (mkErrorClient b k pj env tmo ex).excludedHeaders) →
        filterHeaders (mkErrorClient b k pj env tmo ex) hs = []) ∧
      (∀ pl,
        buildPayload (mkErrorClient b k pj env tmo ex) e ctx = Except.ok pl →
          pl.request_headers.isSome
            = (ctx.bind fun rc => rc.request_headers).isSome) := by
  refine ⟨rfl, ?_, ?_, ?_⟩
  · simp [filterHeaders, mkErrorClient, List.mem_filter]
  · intro hall
    simp only [filterHeaders, List.filter_eq_nil_iff]
    intro p hp
    simp [hall p hp]
  · intro pl hpl
    cases hstr : e.strFn with
    | error f =>
      rw [buildPayload, hstr] at hpl
      cases hpl
    | ok msg =>
      rw [buildPayload, hstr] at hpl
      cases ctx with
      | none =>
        cases hpl
        rfl
      | some rc =>
        by_cases ht : rc.truthy
        · simp only [ht, if_true] at hpl
          cases hpl
          simp
        · simp only [ht, if_false] at hpl
          cases hpl
          simp only [RequestContext.truthy, Bool.or_eq_false_iff] at ht
          simp [Option.bind]
          simp [Option.isSome] at ht ⊢
          rcases ht with ⟨⟨_, _⟩, _⟩
          cases hh : rc.request_headers with
          | none => simp
          | some l => simp [hh] at *

/-- Witness for C5: `Accept` survives, a map of denied keys (in any case,
including the registered extension) filters to `[]`, and the header map
supplied through `ctx0` keeps the `request_headers` field present. -/
theorem filter_headers_witness :
    ("Accept", "y") ∈ filterHeaders c0 hs0 ∧
      filterHeaders c0 hsDenied = [] ∧
      pay0.request_headers.isSome
        = (ctx0.bind fun rc => rc.request_headers).isSome := by
  have h1 := filter_headers_spec "http://errors:8000/" "key" "p" "prod" 5.0
    ["X-Custom"] hs0 ("Accept", "y") e0 ctx0
  have h2 := filter_headers_spec "http://errors:8000/" "key" "p" "prod" 5.0
    ["X-Custom"] hsDenied ("Accept", "y") e0 ctx0
  exact ⟨h1.2.1.mpr ⟨by decide, by decide⟩, h2.2.2.1 (by decide),
    h1.2.2.2 pay0 rfl⟩

theorem dropWhile_head_not (p : Char → Bool) (l : List Char) (c : Char)
    (h : (l.dropWhile p).head? = some c) : p c = false := by
  induction l with
  | nil => simp [List.dropWhile] at h
  | cons a t ih =>
    rw [List.dropWhile_cons] at h
    by_cases ha : p a = true
    · rw [if_pos ha] at h
      exact ih h
    · rw [if_neg ha] at h
      simp only [List.head?_cons, Option.some.injEq] at h
      subst h
      simpa using ha

theorem rstripSlash_append_slash (s : String) :
    rstripSlash (s ++ "/") = rstripSlash s := by
  unfold rstripSlash
  apply congrArg String.mk
  have hd : (s ++ "/").data = s.data ++ ['/'] := String.data_append s "/"
  rw [hd, List.reverse_append]
  simp [List.dropWhile_cons]

theorem rstripSlash_no_trailing_slash (s : String)
    (h : (rstripSlash s).data.getLast? = some '/') : False := by
  have h' : ((s.data.reverse.dropWhile (fun c => c == '/')).reverse).getLast?
      = some '/' := h
  rw [List.getLast?_reverse] at h'
  have hc := dropWhile_head_not (fun c => c == '/') s.data.reverse '/' h'
  simp at hc

/-- C10: both constructors strip every trailing `/` from `base_url`:
supplying a base URL with a trailing slash stores the same `base_url` and
yields the same endpoint URLs as without it, and the stored `base_url` never
ends in `/`, so the fixed `/api/...` suffix never creates a double slash. -/
theorem base_url_no_double_slash (b k pj env : String) (fi tmo : Float)
    (ex : List String) :
    (mkMetricsClient (b ++ "/") k fi tmo).base_url
        = (mkMetricsClient b k fi tmo).base_url ∧
      metricsUrl (mkMetricsClient (b ++ "/") k fi tmo)
        = metricsUrl (mkMetricsClient b k fi tmo) ∧
      (mkErrorClient (b ++ "/") k pj env tmo ex).base_url
        = (mkErrorClient b k pj env tmo ex).base_url ∧
      errorsUrl (mkErrorClient (b ++ "/") k pj env tmo ex)
        = errorsUrl (mkErrorClient b k pj env tmo ex) ∧
      ¬ ((mkMetricsClient b k fi tmo).base_url.data.getLast? = some '/') ∧
      ¬ ((mkErrorClient b k pj env tmo ex).base_url.data.getLast?
          = some '/') := by
  have hb := rstripSlash_append_slash b
  refine ⟨hb, ?_, hb, ?_, fun h => rstripSlash_no_trailing_slash b h,
    fun h => rstripSlash_no_trailing_slash b h⟩
  · simp only [metricsUrl, mkMetricsClient]
    rw [hb]
  · simp only [errorsUrl, mkErrorClient]
    rw [hb]

/-- Witness for C10 at a concrete base URL, with and without trailing
slashes. -/
theorem base_url_no_double_slash_witness :
    (mkMetricsClient ("http://metrics:8000" ++ "/") "key" 10.0 5.0).base_url
        = (mkMetricsClient "http://metrics:8000" "key" 10.0 5.0).base_url ∧
      ¬ ((mkMetricsClient "http://metrics:8000//" "key" 10.0
            5.0).base_url.data.getLast? = some '/') := by
  have h1 := base_url_no_double_slash "http://metrics:8000" "key" "p" "prod"
    10.0 5.0 []
  have h2 := base_url_no_double_slash "http://metrics:8000//" "key" "p" "prod"
    10.0 5.0 []
  exact ⟨h1.1, h2.2.2.2.2.1⟩

end Monlight
